import Mathlib

/-!
Verification development for the ML_PORTAFOLIO_FEN repository.

The repository has two modules:
  * `black_litterman_model.py` — Black-Litterman blending of market equilibrium
    returns with investor views, plus a market-cap-weighted equilibrium return
    estimator;
  * `machine_learning_strategies.py` — a per-asset view-generation pipeline
    (feature engineering, train/test split, model fit, prediction, confidence).

The Black-Litterman side is embedded over `ℚ` (all of its arithmetic is
rational); the machine-learning side is embedded over `ℝ` because rolling
standard deviations and `StandardScaler` take square roots.

Python dictionaries are modelled as association lists `List (String × ℚ)`:
iteration order is insertion order, and `d.values()` is `d.map Prod.snd`.
Machine floats are idealised as exact field arithmetic; division by zero
(which produces `inf`/`NaN` junk in floats) is the field's junk value `0`.
`numpy.linalg.inv` raises on a singular matrix while Mathlib's `Matrix.inv`
is total, so every theorem whose content depends on an inversion succeeding
carries an explicit `IsUnit` hypothesis for that inversion.
-/

namespace MLPortafolio

open Matrix

/-! ## Black-Litterman model (`black_litterman_model.py`), over `ℚ` -/

/-- Values of a Python dict in iteration (insertion) order: `list(d.values())`. -/
def dictValues (d : List (String × ℚ)) : List ℚ :=
  d.map Prod.snd

/-- A dict's values as a vector, `np.array(list(d.values()))` read at index `i`
(indices past the end give the junk value 0; the source assumes all three
dicts have exactly `num_assets` entries). -/
def dictVec (d : List (String × ℚ)) (n : ℕ) : Fin n → ℚ :=
  fun i => (dictValues d).getD i 0

/-- `historical_data['Adj Close'].pct_change().dropna()`: row `t` of the result
is the one-period percentage change from price row `t` to price row `t+1`;
the first (undefined) row of `pct_change` is dropped. -/
def pctChangeDropna {n : ℕ} (prices : List (Fin n → ℚ)) : List (Fin n → ℚ) :=
  (List.range (prices.length - 1)).map fun t => fun j =>
    ((prices.getD (t + 1) (fun _ => 0)) j - (prices.getD t (fun _ => 0)) j) /
      (prices.getD t (fun _ => 0)) j

/-- Column mean of a list of return rows (`pandas` column mean). -/
def colMeanQ {n : ℕ} (rows : List (Fin n → ℚ)) (j : Fin n) : ℚ :=
  (rows.map fun r => r j).sum / rows.length

/-- `DataFrame.cov()`: sample covariance (ddof = 1) between columns `i` and `j`. -/
def sampleCov {n : ℕ} (rows : List (Fin n → ℚ)) : Matrix (Fin n) (Fin n) ℚ :=
  fun i j =>
    (rows.map fun r => (r i - colMeanQ rows i) * (r j - colMeanQ rows j)).sum /
      ((rows.length : ℚ) - 1)

/-- `black_litterman_adjustment(market_returns, investor_views, view_confidences,
historical_data, tau=0.025)` from `black_litterman_model.py`.

`n` is the number of assets; the numpy products in the source are only defined
when all three dicts have `num_assets = n` entries matching the `n` price
columns of `historical_data`.  `P = np.eye(num_assets)`, `Q` is the column of
view values, `omega = diag(tau / confidence)`, and the result is
`inv(inv(tau*Sigma) + P.T @ (inv(omega) @ P)) @ (inv(tau*Sigma) @ mr + P.T @ (inv(omega) @ Q))`
flattened to one scalar per asset in input order. -/
noncomputable def black_litterman_adjustment {n : ℕ}
    (market_returns investor_views view_confidences : List (String × ℚ))
    (historical_data : List (Fin n → ℚ)) (tau : ℚ) : List ℚ :=
  let P : Matrix (Fin n) (Fin n) ℚ := 1
  let Q : Fin n → ℚ := dictVec investor_views n
  let cov_matrix : Matrix (Fin n) (Fin n) ℚ := sampleCov (pctChangeDropna historical_data)
  let omega : Matrix (Fin n) (Fin n) ℚ :=
    Matrix.diagonal fun i => tau / dictVec view_confidences n i
  let inv_omega := omega⁻¹
  let M := ((tau • cov_matrix)⁻¹ + Pᵀ * (inv_omega * P))⁻¹
  let adjusted_returns :=
    M.mulVec ((tau • cov_matrix)⁻¹.mulVec (dictVec market_returns n) +
      (Pᵀ * inv_omega).mulVec Q)
  List.ofFn adjusted_returns

/-- Modelled from the spec: the Black-Litterman reference posterior.  With
`P` the identity pick matrix, `Ω` the diagonal matrix with `τ / confidence_i`
on the diagonal, and `Σ` the covariance of 1-period percentage returns of the
historical adjusted-close prices with the first undefined row dropped, the
posterior is `M · [(τΣ)⁻¹ · equilibrium + PᵀΩ⁻¹ · views]` where
`M = [(τΣ)⁻¹ + PᵀΩ⁻¹P]⁻¹`, flattened to one scalar per asset in input order. -/
noncomputable def blackLittermanReference {n : ℕ}
    (equilibrium views confidences : Fin n → ℚ)
    (historical_prices : List (Fin n → ℚ)) (tau : ℚ) : List ℚ :=
  let P : Matrix (Fin n) (Fin n) ℚ := 1
  let Sigma : Matrix (Fin n) (Fin n) ℚ := sampleCov (pctChangeDropna historical_prices)
  let Omega : Matrix (Fin n) (Fin n) ℚ := Matrix.diagonal fun i => tau / confidences i
  let M : Matrix (Fin n) (Fin n) ℚ := ((tau • Sigma)⁻¹ + Pᵀ * Omega⁻¹ * P)⁻¹
  List.ofFn (M.mulVec ((tau • Sigma)⁻¹.mulVec equilibrium + (Pᵀ * Omega⁻¹).mulVec views))

/-- `get_market_returns(market_caps, index_return)` from
`black_litterman_model.py`. -/
def get_market_returns (market_caps : List (String × ℚ)) (index_return : ℚ) :
    List (String × ℚ) :=
  let total_market_cap := (market_caps.map Prod.snd).sum
  market_caps.map fun p => (p.1, (p.2 / total_market_cap) * index_return)

/-! ### Helper lemmas -/

/-- Reassembling a list from its `getD` reads. -/
lemma ofFn_getD_eq {α : Type} (l : List α) (d : α) {n : ℕ} (h : l.length = n) :
    List.ofFn (fun i : Fin n => l.getD i d) = l := by
  subst h
  apply List.ext_getElem
  · simp
  · intro i h1 h2
    simp [List.getD_eq_getElem]

/-- A 1×1 rational matrix inverts entrywise. -/
lemma inv_fin_one (A : Matrix (Fin 1) (Fin 1) ℚ) :
    A⁻¹ = Matrix.of fun _ _ => (A 0 0)⁻¹ := by
  rw [Matrix.inv_def, Matrix.adjugate_fin_one, Matrix.det_fin_one, Ring.inverse_eq_inv']
  ext i j
  fin_cases i; fin_cases j
  simp

/-! ### Claims about the Black-Litterman module -/

/-- C2: `black_litterman_adjustment` equals the Black-Litterman reference
definition: with `P = I`, `Ω = diag(τ / confidence_i)`, and `Σ` the covariance
of 1-period percentage returns of the historical adjusted-close prices with
the first undefined row dropped, it returns the flattened vector
`M · [(τΣ)⁻¹ · equilibrium + PᵀΩ⁻¹ · views]` with `M = [(τΣ)⁻¹ + PᵀΩ⁻¹P]⁻¹`,
one scalar per asset in input order. -/
theorem black_litterman_adjustment_eq_reference {n : ℕ}
    (market_returns investor_views view_confidences : List (String × ℚ))
    (historical_data : List (Fin n → ℚ)) (tau : ℚ) :
    black_litterman_adjustment market_returns investor_views view_confidences
        historical_data tau =
      blackLittermanReference (dictVec market_returns n) (dictVec investor_views n)
        (dictVec view_confidences n) historical_data tau := by
  simp only [black_litterman_adjustment, blackLittermanReference, mul_assoc]

/-- C3: `get_market_returns` maps each ticker to
`(its market cap / sum of all market caps) * index_return`, keeping tickers
and their order. -/
theorem get_market_returns_capweighted
    (market_caps : List (String × ℚ)) (index_return : ℚ)
    (h : (market_caps.map Prod.snd).sum ≠ 0) :
    get_market_returns market_caps index_return =
      market_caps.map fun p =>
        (p.1, p.2 / (market_caps.map Prod.snd).sum * index_return) :=
  rfl

/-- C3 witness: on market caps `{"A": 300, "B": 700}` and index return `0.10`
the result is `{"A": 0.03, "B": 0.07}`. -/
theorem get_market_returns_capweighted_witness :
    (([(("A" : String), (300 : ℚ)), ("B", 700)].map Prod.snd).sum ≠ 0) ∧
      get_market_returns [("A", 300), ("B", 700)] (1 / 10) =
        [("A", 3 / 100), ("B", 7 / 100)] := by
  have h : (([(("A" : String), (300 : ℚ)), ("B", 700)].map Prod.snd).sum ≠ 0) := by
    norm_num
  refine ⟨h, ?_⟩
  rw [get_market_returns_capweighted [("A", 300), ("B", 700)] (1 / 10) h]
  norm_num

/-- C9: `black_litterman_adjustment` never consults the ticker keys of its
three input dicts — two calls whose dicts carry the same values in the same
iteration order produce identical output, whatever the keys are; alignment of
keys with the covariance matrix's asset order is never checked. -/
theorem black_litterman_adjustment_ignores_keys {n : ℕ}
    (mr₁ mr₂ iv₁ iv₂ vc₁ vc₂ : List (String × ℚ))
    (historical_data : List (Fin n → ℚ)) (tau : ℚ)
    (hmr : dictValues mr₁ = dictValues mr₂)
    (hiv : dictValues iv₁ = dictValues iv₂)
    (hvc : dictValues vc₁ = dictValues vc₂) :
    black_litterman_adjustment mr₁ iv₁ vc₁ historical_data tau =
      black_litterman_adjustment mr₂ iv₂ vc₂ historical_data tau := by
  unfold black_litterman_adjustment dictVec
  rw [hmr, hiv, hvc]

/-- C9 witness: entirely different (mutually inconsistent) ticker keys, same
values in the same order, identical output. -/
theorem black_litterman_adjustment_ignores_keys_witness :
    black_litterman_adjustment [(("AAPL" : String), (1 / 20 : ℚ))] [("MSFT", 2 / 25)]
        [("GOOG", 1 / 2)]
        ([fun _ => 1, fun _ => 2, fun _ => 3] : List (Fin 1 → ℚ)) (1 / 40) =
      black_litterman_adjustment [("X", 1 / 20)] [("Y", 2 / 25)] [("Z", 1 / 2)]
        ([fun _ => 1, fun _ => 2, fun _ => 3] : List (Fin 1 → ℚ)) (1 / 40) :=
  black_litterman_adjustment_ignores_keys _ _ _ _ _ _ _ _ rfl rfl rfl

/-- C4: when the investor views coincide with the equilibrium (market) returns,
the confidences are positive, and every inversion the source performs is
well-defined, `black_litterman_adjustment` returns exactly the equilibrium
returns: the blend is a fixed point when the views agree with the market. -/
theorem black_litterman_adjustment_fixed_point {n : ℕ}
    (market_returns investor_views view_confidences : List (String × ℚ))
    (historical_data : List (Fin n → ℚ)) (tau : ℚ)
    (hlen : market_returns.length = n)
    (hviews : dictValues investor_views = dictValues market_returns)
    (hpos : ∀ c ∈ dictValues view_confidences, 0 < c)
    (hSigma : IsUnit (tau • sampleCov (pctChangeDropna historical_data)).det)
    (hOmega : IsUnit
      (Matrix.diagonal fun i => tau / dictVec view_confidences n i).det)
    (hM : IsUnit ((tau • sampleCov (pctChangeDropna historical_data))⁻¹ +
      (Matrix.diagonal fun i => tau / dictVec view_confidences n i)⁻¹).det) :
    black_litterman_adjustment market_returns investor_views view_confidences
        historical_data tau = dictValues market_returns := by
  have hQ : dictVec investor_views n = dictVec market_returns n := by
    unfold dictVec
    rw [hviews]
  unfold black_litterman_adjustment
  simp only [transpose_one, one_mul, mul_one]
  rw [hQ, ← Matrix.add_mulVec, Matrix.mulVec_mulVec, Matrix.nonsing_inv_mul _ hM,
    Matrix.one_mulVec]
  exact ofFn_getD_eq _ _ (by simpa [dictValues] using hlen)

/-- C4 witness: one asset with price history 1, 2, 3 (sample covariance of
percentage returns 1/8), equilibrium return 1/20, identical view 1/20,
confidence 1/2, τ = 1/40: all inversions are well-defined and the posterior
equals the equilibrium return. -/
theorem black_litterman_adjustment_fixed_point_witness :
    black_litterman_adjustment [(("A" : String), (1 / 20 : ℚ))] [("A", 1 / 20)]
        [("A", 1 / 2)] ([fun _ => 1, fun _ => 2, fun _ => 3] : List (Fin 1 → ℚ))
        (1 / 40) = [(1 / 20 : ℚ)] := by
  have hrows : pctChangeDropna
      ([fun _ => 1, fun _ => 2, fun _ => 3] : List (Fin 1 → ℚ)) =
      [fun _ => 1, fun _ => 1 / 2] := by
    unfold pctChangeDropna
    norm_num [List.range_succ]
  have hS : sampleCov (pctChangeDropna
      ([fun _ => 1, fun _ => 2, fun _ => 3] : List (Fin 1 → ℚ))) =
      Matrix.of fun _ _ => (1 / 8 : ℚ) := by
    rw [hrows]
    ext i j
    fin_cases i
    fin_cases j
    norm_num [sampleCov, colMeanQ]
  exact black_litterman_adjustment_fixed_point _ _ _ _ _ rfl rfl
    (by norm_num [dictValues])
    (by rw [Matrix.det_fin_one, hS]; norm_num)
    (by rw [Matrix.det_fin_one]; norm_num [dictVec, dictValues, Matrix.diagonal])
    (by rw [inv_fin_one, inv_fin_one, Matrix.det_fin_one, hS]
        norm_num [dictVec, dictValues, Matrix.diagonal])

/-! ## Machine-learning strategies (`machine_learning_strategies.py`), over `ℝ`

The feature engineering and scaling take square roots, so this side of the
embedding lives in `ℝ` (`Real.sqrt` models the float `sqrt`).  A `pandas`
cell that would be `NaN` (rolling-window warm-up, forward shift past the end)
is `none`. -/

/-- One row of the downloaded price table; the pipeline reads the date index
and the `Adj Close` and `Volume` columns. -/
structure StockRow where
  date : ℕ
  adjClose : ℝ
  volume : ℝ

instance : Inhabited StockRow := ⟨⟨0, 0, 0⟩⟩

/-- `np.mean` / `pandas` column mean of a list. -/
noncomputable def listMean (l : List ℝ) : ℝ :=
  l.sum / l.length

/-- `pandas` sample standard deviation (`ddof = 1`). -/
noncomputable def sampleStd (l : List ℝ) : ℝ :=
  Real.sqrt ((l.map fun x => (x - listMean l) ^ 2).sum / ((l.length : ℝ) - 1))

/-- `series.pct_change(k)` read at position `i`: defined once `k` prior
observations exist. -/
noncomputable def pctChangeK (p : List ℝ) (k i : ℕ) : Option ℝ :=
  if k ≤ i ∧ i < p.length then
    some ((p.getD i 0 - p.getD (i - k) 0) / p.getD (i - k) 0)
  else none

/-- `series.rolling(window=w)` aggregated by `f`, read at position `i`: the
window is the `w` positions ending at `i`, and the result is defined only
when the whole window is (`min_periods` defaults to the window size). -/
noncomputable def rollingApply (f : List ℝ → ℝ) (w : ℕ) (s : ℕ → Option ℝ)
    (i : ℕ) : Option ℝ :=
  if w - 1 ≤ i then
    let vals := (List.range w).map fun j => s (i - j)
    if vals.all Option.isSome then some (f vals.reduceOption) else none
  else none

/-- One row of the table built by `create_additional_features`.  Field names
follow the source's column names `Adj Close`, `Volume`, `Weekly_Return`,
`Volatility`, `SMA_20`, `SMA_50`, `Price_vs_SMA`, `Momentum`, and
`Volume_Ratio` (the last shortened to `volRel`). -/
structure FeatRow where
  date : ℕ
  adjClose : ℝ
  volume : ℝ
  weeklyReturn : Option ℝ
  volatility : Option ℝ
  sma20 : Option ℝ
  sma50 : Option ℝ
  priceVsSma : Option ℝ
  momentum : Option ℝ
  volRel : Option ℝ

instance : Inhabited FeatRow :=
  ⟨⟨0, 0, 0, none, none, none, none, none, none, none⟩⟩

/-- `dropna` predicate for the feature table: every engineered column of the
row is defined. -/
def featRowDense (r : FeatRow) : Bool :=
  r.weeklyReturn.isSome && r.volatility.isSome && r.sma20.isSome &&
    r.sma50.isSome && r.priceVsSma.isSome && r.momentum.isSome &&
    r.volRel.isSome

/-- `create_additional_features(stock_data)`: weekly return and momentum are
5-period percentage changes, volatility is the rolling 20-period sample
standard deviation of 1-period returns, SMA₂₀/SMA₅₀ are rolling means of the
price, `Price_vs_SMA = (price - SMA₂₀)/SMA₂₀`, `Volume_Ratio` is volume over
its rolling 20-period mean, and `dropna()` discards every row with an
undefined cell. -/
noncomputable def create_additional_features (stock_data : List StockRow) :
    List FeatRow :=
  let adj_close : List ℝ := stock_data.map StockRow.adjClose
  let volume : List ℝ := stock_data.map StockRow.volume
  let ret1 : ℕ → Option ℝ := pctChangeK adj_close 1
  let adjSeries : ℕ → Option ℝ := fun j =>
    if j < adj_close.length then some (adj_close.getD j 0) else none
  let volSeries : ℕ → Option ℝ := fun j =>
    if j < volume.length then some (volume.getD j 0) else none
  let rows : List FeatRow := (List.range stock_data.length).map fun i =>
    { date := (stock_data.getD i default).date
      adjClose := adj_close.getD i 0
      volume := volume.getD i 0
      weeklyReturn := pctChangeK adj_close 5 i
      volatility := rollingApply sampleStd 20 ret1 i
      sma20 := rollingApply listMean 20 adjSeries i
      sma50 := rollingApply listMean 50 adjSeries i
      priceVsSma := (rollingApply listMean 20 adjSeries i).map fun m =>
        (adj_close.getD i 0 - m) / m
      momentum := pctChangeK adj_close 5 i
      volRel := (rollingApply listMean 20 volSeries i).map fun m =>
        volume.getD i 0 / m }
  rows.filter featRowDense

/-- A row of the dense table produced by `prepare_data_for_ml`: all feature
cells and the forward target are realized. -/
structure MLRow where
  date : ℕ
  adjClose : ℝ
  volume : ℝ
  weeklyReturn : ℝ
  volatility : ℝ
  sma20 : ℝ
  sma50 : ℝ
  priceVsSma : ℝ
  momentum : ℝ
  volRel : ℝ
  target : ℝ

/-- `prepare_data_for_ml(stock_data)`: `Target = Weekly_Return.shift(-5)`
(the weekly return realized 5 positions later), then `dropna()` keeps
exactly the rows where every feature cell and the target are defined. -/
noncomputable def prepare_data_for_ml (df : List FeatRow) : List MLRow :=
  (List.range df.length).filterMap fun i =>
    let r := df.getD i default
    match r.weeklyReturn, r.volatility, r.sma20, r.sma50, r.priceVsSma,
      r.momentum, r.volRel, (df[i + 5]?).bind FeatRow.weeklyReturn with
    | some wr, some vo, some s20, some s50, some pv, some mo, some vr, some t =>
      some ⟨r.date, r.adjClose, r.volume, wr, vo, s20, s50, pv, mo, vr, t⟩
    | _, _, _, _, _, _, _, _ => none

/-- The feature matrix row of `ml_stock_data[feature_cols]`, columns in the
source's order `['Volatility', 'Price_vs_SMA', 'Momentum', 'Volume_Ratio',
'SMA_20', 'SMA_50']`. -/
def featVector (r : MLRow) : Fin 6 → ℝ :=
  ![r.volatility, r.priceVsSma, r.momentum, r.volRel, r.sma20, r.sma50]

/-! ### Scaling, splitting, models -/

/-- Per-column mean of a feature matrix. -/
noncomputable def colMeanR (X : List (Fin 6 → ℝ)) (j : Fin 6) : ℝ :=
  (X.map fun r => r j).sum / X.length

/-- Per-column population variance (`StandardScaler` uses `ddof = 0`). -/
noncomputable def colVarR (X : List (Fin 6 → ℝ)) (j : Fin 6) : ℝ :=
  (X.map fun r => (r j - colMeanR X j) ^ 2).sum / X.length

/-- `StandardScaler.fit`: per-column mean and scale; the scale is the
population standard deviation, with an exact zero replaced by 1
(sklearn's `_handle_zeros_in_scale`). -/
noncomputable def scalerFit (X : List (Fin 6 → ℝ)) : (Fin 6 → ℝ) × (Fin 6 → ℝ) :=
  (colMeanR X, fun j =>
    let s := Real.sqrt (colVarR X j)
    if s = 0 then 1 else s)

/-- `StandardScaler.transform` with fitted statistics `stats`. -/
noncomputable def scalerTransform (stats : (Fin 6 → ℝ) × (Fin 6 → ℝ))
    (X : List (Fin 6 → ℝ)) : List (Fin 6 → ℝ) :=
  X.map fun r => fun j => (r j - stats.1 j) / stats.2 j

/-- `scaler.fit_transform(X)`: fit on `X`, then transform `X` itself. -/
noncomputable def scalerFitTransform (X : List (Fin 6 → ℝ)) : List (Fin 6 → ℝ) :=
  scalerTransform (scalerFit X) X

/-- sklearn `train_test_split(..., test_size=0.3)` puts `ceil(0.3 * n)`
elements in the test set. -/
def testSize (n : ℕ) : ℕ :=
  (3 * n + 9) / 10

/-- The split draws a shuffled order of `0..n-1` from the seeded numpy RNG
(`random_state=42`, external); it enters the model as the oracle `shuffled`.
The test set takes the first `testSize n` shuffled indices. -/
def testIndices (shuffled : List ℕ) (n : ℕ) : List ℕ :=
  shuffled.take (testSize n)

/-- The training set takes the remaining shuffled indices. -/
def trainIndices (shuffled : List ℕ) (n : ℕ) : List ℕ :=
  shuffled.drop (testSize n)

/-- Row selection by index list (`DataFrame.iloc[idx]`). -/
def selectRows {α : Type} [Inhabited α] (idx : List ℕ) (X : List α) : List α :=
  idx.map fun i => X.getD i default

/-- The sklearn regressor chosen by `generate_investor_views`, with its
literal hyperparameters (`n_jobs=-1` is an execution detail, not part of the
model), or plain `LinearRegression()`. -/
inductive SkModel
  | randomForestRegressor (n_estimators max_depth random_state : ℕ)
  | gradientBoostingRegressor (n_estimators max_depth : ℕ)
      (learning_rate subsample : ℝ) (random_state : ℕ)
  | linearRegression

/-- Model selection, `generate_investor_views` lines 150-158: two recognized
strings pick the ensembles; every other string falls through to the final
`else` and silently selects plain linear regression. -/
noncomputable def selectModel (model_type : String) : SkModel :=
  if model_type = "Random Forest" then .randomForestRegressor 100 10 42
  else if model_type = "Gradient Boosting" then
    .gradientBoostingRegressor 100 5 0.1 0.8 42
  else .linearRegression

/-- The external regression library: a backend supplies a type of fitted
models and `fit`/`predict` operations that may raise (`Except ε`). -/
structure MLBackend (ε : Type) where
  Fitted : Type
  fit : SkModel → List (Fin 6 → ℝ) → List ℝ → Except ε Fitted
  predict : Fitted → List (Fin 6 → ℝ) → Except ε (List ℝ)

/-- `train_model(model, X_train, y_train)`. -/
def train_model {ε : Type} (B : MLBackend ε) (model : SkModel)
    (X_train : List (Fin 6 → ℝ)) (y_train : List ℝ) : Except ε B.Fitted :=
  B.fit model X_train y_train

/-- `predict_future_returns(model, X_test)`: the mean of the per-row test
predictions. -/
noncomputable def predict_future_returns {ε : Type} (B : MLBackend ε)
    (m : B.Fitted) (X_test : List (Fin 6 → ℝ)) : Except ε ℝ :=
  (B.predict m X_test).map listMean

/-- `sklearn.metrics.r2_score`: `1 - Σ(y - ŷ)² / Σ(y - ȳ)²`. -/
noncomputable def r2_score (y_true y_pred : List ℝ) : ℝ :=
  1 - ((y_true.zip y_pred).map fun p => (p.1 - p.2) ^ 2).sum /
    (y_true.map fun v => (v - listMean y_true) ^ 2).sum

/-- `get_model_confidence(model, X_test, y_test)`: the R² of the test-split
predictions, clamped into `[0.01, 1]`. -/
noncomputable def get_model_confidence {ε : Type} (B : MLBackend ε)
    (m : B.Fitted) (X_test : List (Fin 6 → ℝ)) (y_test : List ℝ) :
    Except ε ℝ :=
  (B.predict m X_test).map fun y_pred =>
    max 0.01 (min 1.0 (r2_score y_test y_pred))

/-- `np.clip(x, lo, hi)`. -/
noncomputable def np_clip (x lo hi : ℝ) : ℝ :=
  min hi (max lo x)

/-! ### The view-generation pipeline -/

/-- Lines 116-128 of the source: `X = ml_stock_data[feature_cols]` followed by
`X_scaled = scaler.fit_transform(X)` — the full feature matrix of the
prepared table, standardized with statistics of the full matrix. -/
noncomputable def pipelineScaledX (stock_data : List StockRow) : List (Fin 6 → ℝ) :=
  scalerFitTransform
    ((prepare_data_for_ml (create_additional_features stock_data)).map featVector)

/-- `y = ml_stock_data['Target']`. -/
noncomputable def pipelineTargets (stock_data : List StockRow) : List ℝ :=
  (prepare_data_for_ml (create_additional_features stock_data)).map MLRow.target

/-- The test rows of the standardized feature matrix (`X_test`). -/
noncomputable def pipelineXTest (shuffled : List ℕ) (stock_data : List StockRow) :
    List (Fin 6 → ℝ) :=
  selectRows (testIndices shuffled (pipelineScaledX stock_data).length)
    (pipelineScaledX stock_data)

/-- The test rows of the target column (`y_test`). -/
noncomputable def pipelineYTest (shuffled : List ℕ) (stock_data : List StockRow) :
    List ℝ :=
  selectRows (testIndices shuffled (pipelineScaledX stock_data).length)
    (pipelineTargets stock_data)

/-- The body of `generate_investor_views` (everything inside `try`).  The
downloaded table (the external `yf.download` result, which may raise) and
the shuffled index order of the seeded split are oracle parameters.  Notes
tying the embedding to the source:
  * `X` and `y` are the feature columns and `Target` of the prepared table;
  * `scaler.fit_transform(X)` runs on the FULL matrix, before the split;
  * `valid_idx = ~np.isnan(y)` keeps every row, because the `Target` column
    was extracted from defined cells by `dropna` in `prepare_data_for_ml`;
  * `SimpleImputer(strategy='mean')` replaces missing cells only, and the
    rows here are total, so it passes `X_train` and `X_test` through. -/
noncomputable def generate_investor_views_body {ε : Type} (B : MLBackend ε)
    (shuffled : List ℕ) (download : Except ε (List StockRow))
    (model_type : String) : Except ε (ℝ × ℝ) :=
  match download with
  | .error e => .error e
  | .ok stock_data =>
    let Xs := pipelineScaledX stock_data
    let y := pipelineTargets stock_data
    if Xs.length < 100 then .ok (0.0, 0.1)
    else
      let n := Xs.length
      let X_train := selectRows (trainIndices shuffled n) Xs
      let X_test := selectRows (testIndices shuffled n) Xs
      let y_train := selectRows (trainIndices shuffled n) y
      let y_test := selectRows (testIndices shuffled n) y
      let model := selectModel model_type
      match train_model B model X_train y_train with
      | .error e => .error e
      | .ok trained_model =>
        match predict_future_returns B trained_model X_test with
        | .error e => .error e
        | .ok predicted_weekly_return =>
          let predicted_annual_return :=
            np_clip ((1 + predicted_weekly_return) ^ (52 : ℕ) - 1) (-0.5) 2.0
          match get_model_confidence B trained_model X_test y_test with
          | .error e => .error e
          | .ok confidence => .ok (predicted_annual_return, confidence)

/-- `generate_investor_views(ticker, start_date, end_date, model_type)`: the
whole pipeline body runs inside `try`, and `except Exception` converts any
raised error into the neutral fallback `(0.0, 0.1)`. -/
noncomputable def generate_investor_views {ε : Type} (B : MLBackend ε)
    (shuffled : List ℕ) (download : Except ε (List StockRow))
    (model_type : String) : ℝ × ℝ :=
  match generate_investor_views_body B shuffled download model_type with
  | .ok v => v
  | .error _ => (0.0, 0.1)

/-- A minimal backend used to exercise the pipeline theorems at concrete
inputs: fitting always succeeds with a unit model, predicting returns no
rows. -/
def trivialBackend : MLBackend Unit where
  Fitted := Unit
  fit := fun _ _ _ => Except.ok ()
  predict := fun _ _ => Except.ok []

/-! ### Claims about the view-generation pipeline -/

/-- Every row of the feature table has all engineered columns defined and a
date drawn from the input's date index. -/
lemma create_additional_features_mem_props (stock_data : List StockRow) :
    ∀ r ∈ create_additional_features stock_data,
      featRowDense r = true ∧ r.date ∈ stock_data.map StockRow.date := by
  intro r hr
  unfold create_additional_features at hr
  rw [List.mem_filter] at hr
  obtain ⟨hmem, hdense⟩ := hr
  refine ⟨hdense, ?_⟩
  rw [List.mem_map] at hmem
  obtain ⟨i, hi, hrow⟩ := hmem
  rw [List.mem_range] at hi
  have hdate : r.date = (stock_data.getD i default).date := by
    rw [← hrow]
  rw [hdate, List.getD_eq_getElem stock_data default hi]
  exact List.mem_map.mpr ⟨stock_data[i], List.getElem_mem hi, rfl⟩

/-- C8: for every input price/volume series, the feature table returned by
`create_additional_features` contains no undefined value in any engineered
column (every row passes `featRowDense`, i.e. all `Option` cells are `some`),
and every date of its index occurs in the input series' date index. -/
theorem create_additional_features_dense_and_aligned (stock_data : List StockRow) :
    (create_additional_features stock_data).all featRowDense = true ∧
      ((create_additional_features stock_data).map FeatRow.date).all
        (fun d => (stock_data.map StockRow.date).contains d) = true := by
  constructor
  · rw [List.all_eq_true]
    intro r hr
    exact (create_additional_features_mem_props stock_data r hr).1
  · rw [List.all_eq_true]
    intro d hd
    rw [List.mem_map] at hd
    obtain ⟨r, hr, rfl⟩ := hd
    have hmem := (create_additional_features_mem_props stock_data r hr).2
    simpa [List.contains, List.elem_iff] using hmem

/-- C5: if fewer than 100 valid rows survive feature engineering and removal
of the undefined target rows, `generate_investor_views` returns exactly
`(0.0, 0.1)`: the body short-circuits with the neutral pair before the split
and before any model is fitted, for every backend and every shuffle order. -/
theorem generate_investor_views_insufficient_data {ε : Type} (B : MLBackend ε)
    (shuffled : List ℕ) (stock_data : List StockRow) (model_type : String)
    (h : (prepare_data_for_ml (create_additional_features stock_data)).length < 100) :
    generate_investor_views_body B shuffled (Except.ok stock_data) model_type =
        Except.ok (0.0, 0.1) ∧
      generate_investor_views B shuffled (Except.ok stock_data) model_type =
        (0.0, 0.1) := by
  have hlen : (pipelineScaledX stock_data).length < 100 := by
    simpa [pipelineScaledX, scalerFitTransform, scalerTransform] using h
  have hbody : generate_investor_views_body B shuffled (Except.ok stock_data)
      model_type = Except.ok (0.0, 0.1) := by
    simp only [generate_investor_views_body]
    rw [if_pos hlen]
  refine ⟨hbody, ?_⟩
  unfold generate_investor_views
  rw [hbody]

/-- C5 witness: an empty download yields 0 valid rows, and the neutral result. -/
theorem generate_investor_views_insufficient_data_witness :
    generate_investor_views trivialBackend [] (Except.ok [])
        ("Gradient Boosting") = (0.0, 0.1) := by
  have h : (prepare_data_for_ml
      (create_additional_features ([] : List StockRow))).length < 100 := by
    norm_num [prepare_data_for_ml, create_additional_features]
  exact (generate_investor_views_insufficient_data trivialBackend [] []
    ("Gradient Boosting") h).2

/-- C6: any error raised anywhere inside the pipeline body is caught by the
`try`/`except` wrapper and converted to the neutral fallback, so
`generate_investor_views` never propagates an error to its caller. -/
theorem generate_investor_views_catches_errors {ε : Type} (B : MLBackend ε)
    (shuffled : List ℕ) (download : Except ε (List StockRow))
    (model_type : String) (e : ε)
    (h : generate_investor_views_body B shuffled download model_type =
      Except.error e) :
    generate_investor_views B shuffled download model_type = (0.0, 0.1) := by
  unfold generate_investor_views
  rw [h]

/-- C6 witness: a failing download is an error of the body, and the function
returns the neutral fallback. -/
theorem generate_investor_views_catches_errors_witness :
    generate_investor_views_body trivialBackend [] (Except.error ())
        ("Gradient Boosting") = Except.error () ∧
      generate_investor_views trivialBackend [] (Except.error ())
        ("Gradient Boosting") = (0.0, 0.1) :=
  ⟨rfl, generate_investor_views_catches_errors trivialBackend []
    (Except.error ()) ("Gradient Boosting") () rfl⟩

/-- C10: every `model_type` string other than `'Random Forest'` and
`'Gradient Boosting'` (misspellings included) silently selects plain linear
regression, so an invalid `model_type` is indistinguishable from requesting
`'Linear Regression'`. -/
theorem selectModel_default_linear (model_type : String)
    (h1 : model_type ≠ "Random Forest")
    (h2 : model_type ≠ "Gradient Boosting") :
    selectModel model_type = SkModel.linearRegression ∧
      ∀ (ε : Type) (B : MLBackend ε) (shuffled : List ℕ)
        (download : Except ε (List StockRow)),
        generate_investor_views B shuffled download model_type =
          generate_investor_views B shuffled download ("Linear Regression") := by
  have hsel : selectModel model_type = SkModel.linearRegression := by
    unfold selectModel
    rw [if_neg h1, if_neg h2]
  have hLR : selectModel ("Linear Regression") = SkModel.linearRegression := by
    unfold selectModel
    rw [if_neg (by decide), if_neg (by decide)]
  refine ⟨hsel, ?_⟩
  intro ε B shuffled download
  unfold generate_investor_views generate_investor_views_body
  rw [hsel, hLR]

/-- C10 witness: the misspelled string `'linear regresion'` behaves exactly
like `'Linear Regression'`. -/
theorem selectModel_default_linear_witness :
    selectModel ("linear regresion") = SkModel.linearRegression ∧
      generate_investor_views trivialBackend [] (Except.error ())
          ("linear regresion") =
        generate_investor_views trivialBackend [] (Except.error ())
          ("Linear Regression") := by
  have h := selectModel_default_linear ("linear regresion") (by decide) (by decide)
  exact ⟨h.1, h.2 Unit trivialBackend [] (Except.error ())⟩

/-- Row selection commutes with a rowwise map when every index is in range. -/
lemma selectRows_map {α β : Type} [Inhabited α] [Inhabited β] (g : α → β)
    (idx : List ℕ) (X : List α) (h : ∀ i ∈ idx, i < X.length) :
    selectRows idx (X.map g) = (selectRows idx X).map g := by
  unfold selectRows
  rw [List.map_map]
  apply List.map_congr_left
  intro i hi
  have hlt := h i hi
  simp only [Function.comp]
  rw [List.getD_eq_getElem _ _ (by simpa using hlt), List.getD_eq_getElem _ _ hlt,
    List.getElem_map]

/-- C1 counterexample: in `generate_investor_views` the scaler is fit on the
FULL feature matrix before the split (`X_scaled = scaler.fit_transform(X)`
precedes `train_test_split`), so the scaled test rows are NOT the rows that
training-split-only statistics would produce.  Concrete instance: four rows
with constant feature values 4, 6, 0, 6; shuffle order `[0, 1, 2, 3]` puts
rows 0 and 1 in the test split (`testSize 4 = 2`) and rows 2 and 3 in the
training split.  The full-matrix column mean is 4, so the code scales test
row 0 to 0; training-split statistics (mean 3, standard deviation 3) would
scale it to 1/3. -/
theorem scaler_fit_before_split_counterexample :
    ¬ (selectRows (testIndices [0, 1, 2, 3]
          ([fun _ => 4, fun _ => 6, fun _ => 0, fun _ => 6] : List (Fin 6 → ℝ)).length)
          (scalerFitTransform [fun _ => 4, fun _ => 6, fun _ => 0, fun _ => 6]) =
        scalerTransform
          (scalerFit (selectRows (trainIndices [0, 1, 2, 3]
            ([fun _ => 4, fun _ => 6, fun _ => 0, fun _ => 6] : List (Fin 6 → ℝ)).length)
            [fun _ => 4, fun _ => 6, fun _ => 0, fun _ => 6]))
          (selectRows (testIndices [0, 1, 2, 3]
            ([fun _ => 4, fun _ => 6, fun _ => 0, fun _ => 6] : List (Fin 6 → ℝ)).length)
            [fun _ => 4, fun _ => 6, fun _ => 0, fun _ => 6])) := by
  intro h
  have hsqrt9 : Real.sqrt 9 = 3 := by
    rw [show (9 : ℝ) = 3 ^ 2 by norm_num]
    exact Real.sqrt_sq (by norm_num)
  have h0 := congrFun (congrArg (fun l => l.getD 0 (default : Fin 6 → ℝ)) h) 0
  norm_num [selectRows, testIndices, trainIndices, testSize, scalerFitTransform,
    scalerTransform, scalerFit, colMeanR, colVarR, List.getD_cons_zero,
    List.getD_cons_succ] at h0
  rw [hsqrt9] at h0
  norm_num at h0

/-- C1 amended: the standardization statistics the pipeline applies to the
test split are computed on the FULL feature matrix before the split, not on
the training split: selecting the test (or train) rows of
`scaler.fit_transform(X)` equals transforming the selected raw rows with
statistics fitted on all of `X`. -/
theorem scaler_full_matrix_stats (X : List (Fin 6 → ℝ)) (shuffled : List ℕ)
    (hvalid : ∀ i ∈ shuffled, i < X.length) :
    selectRows (testIndices shuffled X.length) (scalerFitTransform X) =
        scalerTransform (scalerFit X)
          (selectRows (testIndices shuffled X.length) X) ∧
      selectRows (trainIndices shuffled X.length) (scalerFitTransform X) =
        scalerTransform (scalerFit X)
          (selectRows (trainIndices shuffled X.length) X) := by
  constructor
  · exact selectRows_map _ _ _ fun i hi =>
      hvalid i (List.mem_of_mem_take hi)
  · exact selectRows_map _ _ _ fun i hi =>
      hvalid i (List.mem_of_mem_drop hi)

/-- C1 amended witness: the concrete matrix and shuffle of the
counterexample satisfy the amended claim. -/
theorem scaler_full_matrix_stats_witness :
    selectRows (testIndices [0, 1, 2, 3]
        ([fun _ => 4, fun _ => 6, fun _ => 0, fun _ => 6] : List (Fin 6 → ℝ)).length)
        (scalerFitTransform [fun _ => 4, fun _ => 6, fun _ => 0, fun _ => 6]) =
      scalerTransform (scalerFit [fun _ => 4, fun _ => 6, fun _ => 0, fun _ => 6])
        (selectRows (testIndices [0, 1, 2, 3]
          ([fun _ => 4, fun _ => 6, fun _ => 0, fun _ => 6] : List (Fin 6 → ℝ)).length)
          [fun _ => 4, fun _ => 6, fun _ => 0, fun _ => 6]) :=
  (scaler_full_matrix_stats [fun _ => 4, fun _ => 6, fun _ => 0, fun _ => 6]
    [0, 1, 2, 3] (by decide)).1

/-- `np.clip` keeps its output inside `[lo, hi]` whenever `lo ≤ hi`. -/
lemma np_clip_mem (x lo hi : ℝ) (h : lo ≤ hi) :
    lo ≤ np_clip x lo hi ∧ np_clip x lo hi ≤ hi :=
  ⟨le_min h (le_max_left lo x), min_le_left hi _⟩

/-- C7: on every path — success, insufficient-data fallback, exception
fallback — the returned pair has its annual return in `[-0.5, 2]` and its
confidence in `[0.01, 1]`; moreover the result is either the neutral
fallback `(0.0, 0.1)` or the success pair
`((1 + mean weekly test prediction)^52 - 1` clipped to `[-0.5, 2]`,
`test-split R² clamped to [0.01, 1])`. -/
theorem generate_investor_views_in_bounds {ε : Type} (B : MLBackend ε)
    (shuffled : List ℕ) (download : Except ε (List StockRow))
    (model_type : String) :
    (-0.5 ≤ (generate_investor_views B shuffled download model_type).1 ∧
      (generate_investor_views B shuffled download model_type).1 ≤ 2.0 ∧
      0.01 ≤ (generate_investor_views B shuffled download model_type).2 ∧
      (generate_investor_views B shuffled download model_type).2 ≤ 1.0) ∧
    (generate_investor_views B shuffled download model_type = (0.0, 0.1) ∨
      ∃ (stock_data : List StockRow) (trained : B.Fitted) (preds : List ℝ),
        download = Except.ok stock_data ∧
        train_model B (selectModel model_type)
          (selectRows (trainIndices shuffled (pipelineScaledX stock_data).length)
            (pipelineScaledX stock_data))
          (selectRows (trainIndices shuffled (pipelineScaledX stock_data).length)
            (pipelineTargets stock_data)) = Except.ok trained ∧
        B.predict trained (pipelineXTest shuffled stock_data) = Except.ok preds ∧
        generate_investor_views B shuffled download model_type =
          (np_clip ((1 + listMean preds) ^ (52 : ℕ) - 1) (-0.5) 2.0,
            max 0.01 (min 1.0 (r2_score (pipelineYTest shuffled stock_data) preds)))) := by
  cases download with
  | error e =>
    have hres : generate_investor_views B shuffled (Except.error e) model_type =
        (0.0, 0.1) := rfl
    rw [hres]
    exact ⟨by norm_num, Or.inl rfl⟩
  | ok sd =>
    by_cases hlt : (pipelineScaledX sd).length < 100
    · have hres : generate_investor_views B shuffled (Except.ok sd) model_type =
          (0.0, 0.1) := by
        unfold generate_investor_views
        simp only [generate_investor_views_body]
        rw [if_pos hlt]
      rw [hres]
      exact ⟨by norm_num, Or.inl rfl⟩
    · cases hfit : B.fit (selectModel model_type)
        (selectRows (trainIndices shuffled (pipelineScaledX sd).length)
          (pipelineScaledX sd))
        (selectRows (trainIndices shuffled (pipelineScaledX sd).length)
          (pipelineTargets sd)) with
      | error e =>
        have hres : generate_investor_views B shuffled (Except.ok sd) model_type =
            (0.0, 0.1) := by
          unfold generate_investor_views
          simp only [generate_investor_views_body]
          rw [if_neg hlt]
          unfold train_model
          rw [hfit]
        rw [hres]
        exact ⟨by norm_num, Or.inl rfl⟩
      | ok trained =>
        cases hpred : B.predict trained (pipelineXTest shuffled sd) with
        | error e =>
          have hres : generate_investor_views B shuffled (Except.ok sd) model_type =
              (0.0, 0.1) := by
            unfold generate_investor_views
            simp only [generate_investor_views_body]
            rw [if_neg hlt]
            unfold train_model predict_future_returns
            simp only [pipelineXTest] at hpred
            simp [hfit, hpred, Except.map]
          rw [hres]
          exact ⟨by norm_num, Or.inl rfl⟩
        | ok preds =>
          have hres : generate_investor_views B shuffled (Except.ok sd) model_type =
              (np_clip ((1 + listMean preds) ^ (52 : ℕ) - 1) (-0.5) 2.0,
                max 0.01 (min 1.0 (r2_score (pipelineYTest shuffled sd) preds))) := by
            unfold generate_investor_views
            simp only [generate_investor_views_body]
            rw [if_neg hlt]
            unfold train_model predict_future_returns get_model_confidence
            simp only [pipelineXTest] at hpred
            simp [hfit, hpred, Except.map, pipelineYTest]
          refine ⟨?_, Or.inr ⟨sd, trained, preds, rfl, hfit, hpred, hres⟩⟩
          rw [hres]
          have hclip := np_clip_mem ((1 + listMean preds) ^ (52 : ℕ) - 1)
            (-0.5) 2.0 (by norm_num)
          refine ⟨hclip.1, hclip.2, le_max_left _ _, ?_⟩
          exact max_le (by norm_num) (min_le_left _ _)

end MLPortafolio
